import Mathlib

/-!
Verification of the AppStream streaming/control engine.

Shallow embedding of the core modules:
  * `app/core/remote_command.py`  — `CommandType`, `RemoteCommand.to_json` / `from_json`
  * `app/core/streaming.py`       — command-stream chunking, frame-length framing,
                                    pacing state, `set_quality` / `set_fps_limit`,
                                    `StreamClient._parse_ngrok_url`
  * `app/utils/ngrok_service.py`  — `NgrokService.start_tunnel` fallback policy
  * `app/utils/network_diagnostics.py` — `run_network_diagnostics`
  * `app/core/screen_capture.py`  — `ScreenCapture.capture_screen` retry

Python's `json.dumps` / `json.loads` pair (an external stdlib collaborator) is
modelled as the identity bridge on JSON values: commands are encoded to and
decoded from a `Json` value tree, exactly the dict the Python code builds
before calling `dumps` and obtains from `loads`.
-/

namespace AppStream

/-- JSON value tree, the value domain of Python's `json` module as used by
`remote_command.py` (objects, arrays, strings, integers, floats, booleans,
null).  A float is carried as its exact rational value: every IEEE-754 double
is a dyadic rational, and Python's `==` between a float and an int is exact
numeric comparison, which is all the decode path inspects. -/
inductive Json where
  | null : Json
  | bool (b : Bool) : Json
  | num (n : Int) : Json
  | float (q : ℚ) : Json
  | str (s : String) : Json
  | arr (elems : List Json) : Json
  | obj (fields : List (String × Json)) : Json

/-- `data[key]` on a decoded JSON object: `none` models the `KeyError` /
`TypeError` path that `from_json`'s `except` clause turns into `None`. -/
def Json.getField : Json → String → Option Json
  | .obj fields, key => fields.lookup key
  | _, _ => none

/-- The integer a JSON value compares equal to under Python `==`, if any.
CPython's `Enum` value lookup (`CommandType(data['type'])`) finds the member
whose value `==` the argument: an int matches itself, `True`/`False` match
1/0 (`bool` is an `int` subclass), a float matches its value when that value
is integral, and strings, null, lists and dicts match no int — for those, or
for an unmatched integer, the lookup raises `ValueError`, the
caught-exception path. -/
def Json.enumKey : Json → Option Int
  | .num n => some n
  | .bool b => some (if b then 1 else 0)
  | .float q => if q.den = 1 then some q.num else none
  | _ => none

/-- `CommandType` enum of `remote_command.py` (values 1..10). -/
inductive CommandType where
  | MOUSE_MOVE
  | MOUSE_CLICK
  | MOUSE_DOWN
  | MOUSE_UP
  | MOUSE_SCROLL
  | KEY_PRESS
  | KEY_DOWN
  | KEY_UP
  | TYPE_TEXT
  | HOTKEY
deriving DecidableEq

/-- The integer `.value` of each enum member. -/
def CommandType.value : CommandType → Int
  | .MOUSE_MOVE => 1
  | .MOUSE_CLICK => 2
  | .MOUSE_DOWN => 3
  | .MOUSE_UP => 4
  | .MOUSE_SCROLL => 5
  | .KEY_PRESS => 6
  | .KEY_DOWN => 7
  | .KEY_UP => 8
  | .TYPE_TEXT => 9
  | .HOTKEY => 10

/-- `CommandType(v)` constructor lookup: `some` member with that value, or
`none` for the `ValueError` path (unknown discriminator). -/
def CommandType.fromValue : Int → Option CommandType
  | 1 => some .MOUSE_MOVE
  | 2 => some .MOUSE_CLICK
  | 3 => some .MOUSE_DOWN
  | 4 => some .MOUSE_UP
  | 5 => some .MOUSE_SCROLL
  | 6 => some .KEY_PRESS
  | 7 => some .KEY_DOWN
  | 8 => some .KEY_UP
  | 9 => some .TYPE_TEXT
  | 10 => some .HOTKEY
  | _ => none

/-- `RemoteCommand`: a command type together with its params dict (held as an
arbitrary JSON value, exactly as `from_json` stores `data['params']`). -/
structure RemoteCommand where
  command_type : CommandType
  params : Json

/-- `RemoteCommand.to_json`: builds `{'type': self.command_type.value,
'params': self.params}` (the value handed to `json.dumps`). -/
def RemoteCommand.to_json (c : RemoteCommand) : Json :=
  .obj [("type", .num c.command_type.value), ("params", c.params)]

/-- `RemoteCommand.from_json`: reads `data['type']`, maps it through the
`CommandType` enum's `==`-based value lookup (so `true` decodes as 1 and
`1.0` as 1), reads `data['params']`; any failure along the way is the
caught-exception path returning `None`. -/
def RemoteCommand.from_json (j : Json) : Option RemoteCommand := do
  let t ← j.getField "type"
  let v ← t.enumKey
  let ct ← CommandType.fromValue v
  let p ← j.getField "params"
  return ⟨ct, p⟩

/-- `RemoteCommand.create_mouse_move`. -/
def RemoteCommand.create_mouse_move (x y : Int) (relative : Bool) : RemoteCommand :=
  ⟨.MOUSE_MOVE, .obj [("x", .num x), ("y", .num y), ("relative", .bool relative)]⟩

/-- `RemoteCommand.create_mouse_click`. -/
def RemoteCommand.create_mouse_click (button : String) (double : Bool) : RemoteCommand :=
  ⟨.MOUSE_CLICK, .obj [("button", .str button), ("double", .bool double)]⟩

/-- `RemoteCommand.create_mouse_down`. -/
def RemoteCommand.create_mouse_down (button : String) : RemoteCommand :=
  ⟨.MOUSE_DOWN, .obj [("button", .str button)]⟩

/-- `RemoteCommand.create_mouse_up`. -/
def RemoteCommand.create_mouse_up (button : String) : RemoteCommand :=
  ⟨.MOUSE_UP, .obj [("button", .str button)]⟩

/-- `RemoteCommand.create_mouse_scroll`. -/
def RemoteCommand.create_mouse_scroll (clicks : Int) : RemoteCommand :=
  ⟨.MOUSE_SCROLL, .obj [("clicks", .num clicks)]⟩

/-- `RemoteCommand.create_key_press`. -/
def RemoteCommand.create_key_press (key : String) : RemoteCommand :=
  ⟨.KEY_PRESS, .obj [("key", .str key)]⟩

/-- `RemoteCommand.create_key_down`. -/
def RemoteCommand.create_key_down (key : String) : RemoteCommand :=
  ⟨.KEY_DOWN, .obj [("key", .str key)]⟩

/-- `RemoteCommand.create_key_up`. -/
def RemoteCommand.create_key_up (key : String) : RemoteCommand :=
  ⟨.KEY_UP, .obj [("key", .str key)]⟩

/-- `RemoteCommand.create_type_text`. -/
def RemoteCommand.create_type_text (text : String) : RemoteCommand :=
  ⟨.TYPE_TEXT, .obj [("text", .str text)]⟩

/-- `RemoteCommand.create_hotkey`. -/
def RemoteCommand.create_hotkey (keys : List String) : RemoteCommand :=
  ⟨.HOTKEY, .obj [("keys", .arr (keys.map Json.str))]⟩

/-! ### Command channel: newline-delimited stream processing
(`StreamServer._handle_commands`, `streaming.py` lines 226-260). -/

/-- Split a text buffer into its complete newline-terminated lines and the
trailing remainder — the net effect of the handler's inner
`while chr(10) in buffer: command_str, buffer = buffer.split(chr(10), 1)` loop. -/
def splitNl : List Char → List (List Char) × List Char
  | [] => ([], [])
  | c :: rest =>
    if c = '\n' then
      let p := splitNl rest
      ([] :: p.1, p.2)
    else
      match splitNl rest with
      | (l :: ls, r) => ((c :: l) :: ls, r)
      | ([], r) => ([], c :: r)

/-- One iteration of the handler's outer receive loop: append the received
chunk to the buffer, extract every complete line, keep the remainder as the
new buffer.  Returns the new buffer and the lines extracted this iteration. -/
def commandStep (buffer chunk : List Char) : List Char × List (List Char) :=
  let p := splitNl (buffer ++ chunk)
  (p.2, p.1)

/-- The whole receive loop over a sequence of reads: each extracted line is
decoded (`RemoteCommand.from_json` on the line), and exactly the successfully
decoded commands are dispatched (`if command: self._execute_command(command)`),
in order; a line whose decode fails is skipped.  `decode` abstracts the
string-level `RemoteCommand.from_json`; the result is the dispatched command
sequence together with the final buffer. -/
def runChunks {α : Type} (decode : List Char → Option α) :
    List Char → List (List Char) → List Char × List α
  | buffer, [] => (buffer, [])
  | buffer, chunk :: rest =>
    let s := commandStep buffer chunk
    let t := runChunks decode s.1 rest
    (t.1, s.2.filterMap decode ++ t.2)

/-! ### Video framing (`StreamServer._handle_client` line 353-354,
`StreamClient._receive_frames` lines 557-566). -/

/-- Little-endian byte list of `n`, `wordSize` bytes: the bytes produced by
`struct.pack("L", n)` in native mode on a little-endian host whose C
`unsigned long` is `wordSize` bytes (8 on 64-bit Linux/macOS, 4 on 32-bit). -/
def packNativeUL (wordSize n : Nat) : List Nat :=
  (List.range wordSize).map fun i => n / 256 ^ i % 256

/-- The 4-byte big-endian encoding `struct.pack(">I", n)` that the specified
wire format `{length:uint32 BE}{payload}` calls for. -/
def packBE4 (n : Nat) : List Nat :=
  [n / 256 ^ 3 % 256, n / 256 ^ 2 % 256, n / 256 % 256, n % 256]

/-- Bytes written to the socket for one frame:
`client_socket.sendall(message_size + data)` with
`message_size = struct.pack("L", len(data))`. -/
def sentFrameBytes (wordSize : Nat) (payload : List Nat) : List Nat :=
  packNativeUL wordSize payload.length ++ payload

/-- The client's `payload_size = struct.calcsize("L")`: how many bytes its
receive loop consumes as the length field — again the host's native
`unsigned long` width, not a fixed 4. -/
def clientPayloadSize (wordSize : Nat) : Nat := wordSize

/-! ### Server state: quality, FPS limit, pacing
(`StreamServer.__init__` lines 42-45, `set_quality` line 168,
`set_fps_limit` lines 178-179, `_handle_client` lines 326-329 and 356). -/

/-- The mutable server fields relevant to pacing.  `last_frame_time` is a
single field of the server object (`self.last_frame_time`), shared by every
client handler thread. -/
structure StreamServerState where
  quality : Int
  fps_limit : Int
  frame_time : ℚ
  last_frame_time : ℚ

/-- `StreamServer.__init__`: quality 50, fps_limit 30,
`frame_time = 1.0 / fps_limit`, `last_frame_time = 0`. -/
def StreamServerState.init : StreamServerState :=
  { quality := 50, fps_limit := 30, frame_time := 1 / 30, last_frame_time := 0 }

/-- `StreamServer.set_quality`: `self.quality = max(0, min(100, quality))`. -/
def StreamServerState.set_quality (s : StreamServerState) (q : Int) : StreamServerState :=
  { s with quality := max 0 (min 100 q) }

/-- `StreamServer.set_fps_limit`: `self.fps_limit = max(1, fps)` and
`self.frame_time = 1.0 / self.fps_limit`, recomputed in the same call. -/
def StreamServerState.set_fps_limit (s : StreamServerState) (fps : Int) : StreamServerState :=
  let f : Int := max 1 fps
  { s with fps_limit := f, frame_time := 1 / (f : ℚ) }

/-- One pass of `_handle_client`'s pacing gate at wall-clock time `now`:
if `now - self.last_frame_time < self.frame_time` the handler sleeps and
retries (no frame sent, state unchanged); otherwise it sends a frame and sets
`self.last_frame_time = now`.  The state it reads and writes is the shared
server object, whichever connection's thread is running. -/
def handleClientTick (s : StreamServerState) (now : ℚ) : StreamServerState × Bool :=
  if now - s.last_frame_time < s.frame_time then (s, false)
  else ({ s with last_frame_time := now }, true)

/-! ### Screen capture retry (`ScreenCapture.capture_screen` lines 82-94). -/

/-- `ScreenCapture.capture_screen`'s grab section.  `grab k` is the outcome of
the k-th grab attempt: attempt 0 uses the current handle (`self.sct.grab`),
attempt 1 runs after the handle is re-acquired (`self.sct = mss.mss()`); a
`none` covers both a grab exception and a failed re-initialisation.  `convert`
is the subsequent PIL/numpy conversion step, itself fallible.  Returns the
function's result together with the number of grab attempts made. -/
def capture_screen {Img Buf : Type} (grab : Nat → Option Img)
    (convert : Img → Option Buf) : Option Buf × Nat :=
  match grab 0 with
  | some img => (convert img, 1)
  | none =>
    match grab 1 with
    | some img => (convert img, 2)
    | none => (none, 2)

/-! ### Tunnel manager fallback (`NgrokService.start_tunnel` lines 46-78). -/

/-- Does `pat` start the character list?  (Python `startswith`, the step of
substring search.) -/
def isPrefSeq : List Char → List Char → Bool
  | [], _ => true
  | _ :: _, [] => false
  | p :: ps, c :: cs => p == c && isPrefSeq ps cs

/-- Does `pat` occur as a contiguous run inside the character list? -/
def containsSeq (pat : List Char) : List Char → Bool
  | [] => pat.isEmpty
  | c :: rest => isPrefSeq pat (c :: rest) || containsSeq pat rest

/-- Substring test, Python's `needle in haystack` on strings. -/
def strContains (haystack needle : String) : Bool :=
  containsSeq needle.data haystack.data

/-- `NgrokService.start_tunnel`'s connect/fallback policy.  `connect port
protocol` is the provider call `ngrok.connect(port, protocol)`, returning the
public URL or raising with a message.  First attempt uses the requested
protocol; on failure, exactly when the request was TCP, `fallback_to_http` is
set and the message contains `"TCP endpoints"` (the provider's plan/capability
rejection), one retry with protocol `"http"` is made; any other failure is
re-raised into the outer handler, which returns `None`.  The result is the
returned URL (or `none`) paired with the list of provider calls made, in
order. -/
def start_tunnel (connect : Nat → String → Except String String)
    (port : Nat) (protocol : String) (fallback_to_http : Bool) :
    Option String × List (Nat × String) :=
  match connect port protocol with
  | .ok url => (some url, [(port, protocol)])
  | .error e =>
    if protocol = "tcp" ∧ fallback_to_http ∧ strContains e "TCP endpoints" then
      match connect port "http" with
      | .ok url => (some url, [(port, protocol), (port, "http")])
      | .error _ => (none, [(port, protocol), (port, "http")])
    else (none, [(port, protocol)])

/-! ### Tunnel URL parsing (`StreamClient._parse_ngrok_url` lines 459-502). -/

/-- `url.lower()` (ASCII case folding, all the schemes need). -/
def lowerChars (l : List Char) : List Char := l.map Char.toLower

/-- `url.split(pat, 1)`: split at the first occurrence of `pat`, returning the
parts before and after it; `none` when `pat` does not occur. -/
def splitFirstSeq (pat : List Char) : List Char → Option (List Char × List Char)
  | [] => if pat.isEmpty then some ([], []) else none
  | c :: rest =>
    if isPrefSeq pat (c :: rest) then some ([], (c :: rest).drop pat.length)
    else
      match splitFirstSeq pat rest with
      | some p => some (c :: p.1, p.2)
      | none => none

/-- `url.rsplit(sep, 1)`: split at the LAST occurrence of the character;
`none` when it does not occur (so `some` exactly when `sep in url`). -/
def rsplitLastChar (sep : Char) : List Char → Option (List Char × List Char)
  | [] => none
  | x :: xs =>
    match rsplitLastChar sep xs with
    | some p => some (x :: p.1, p.2)
    | none => if x = sep then some ([], xs) else none

/-- Value of a list of decimal digit characters. -/
def natOfDigits (l : List Char) : Nat :=
  l.foldl (fun n c => 10 * n + (c.toNat - 48)) 0

/-- Python `int(s)` on the port text: an optional minus sign followed by at
least one digit; anything else raises `ValueError`, which
`_parse_ngrok_url`'s `except` turns into `(None, None)`. -/
def parseIntPy : List Char → Option Int
  | [] => none
  | c :: ds =>
    if c = '-' then
      if ds ≠ [] ∧ ds.all Char.isDigit then some (-(natOfDigits ds : Int)) else none
    else
      if (c :: ds).all Char.isDigit then some ((natOfDigits (c :: ds) : Int)) else none

/-- The scheme test of `_parse_ngrok_url`:
`is_http = 'http://' in url.lower() or 'https://' in url.lower()`. -/
def isHttpUrl (url : String) : Bool :=
  containsSeq "http://".data (lowerChars url.data) ||
    containsSeq "https://".data (lowerChars url.data)

/-- `if '://' in url: url = url.split('://', 1)[1]`. -/
def stripScheme (url : String) : List Char :=
  match splitFirstSeq "://".data url.data with
  | some p => p.2
  | none => url.data

/-- The common tail of both branches of `_parse_ngrok_url`: if `:` occurs,
split at the last `:` and parse the port with `int()` (failure lands in the
exception handler, `(None, None)`); if no `:` occurs return the
branch-specific no-port outcome (`(host, 80)` for http(s), `(None, None)` for
tcp).  (`rsplitLastChar` returns `some` exactly when `:` occurs, so this
`match` is the code's `if ':' in url` plus its `rsplit(':', 1)`.) -/
def parsePortSplit (stripped : List Char) (noColon : Option String × Option Int) :
    Option String × Option Int :=
  match rsplitLastChar ':' stripped with
  | some p =>
    match parseIntPy p.2 with
    | some port => (some (String.mk p.1), some port)
    | none => (none, none)
  | none => noColon

/-- `StreamClient._parse_ngrok_url`.  Computes `is_http`, strips everything up
to the first `://`, then branches: an http(s) URL with a `:` in the remainder
takes the text after the last `:` as its port, and without one defaults the
host to the stripped text and the port to 80; a non-http URL requires the `:`
and explicit port, else `(None, None)`. -/
def parse_ngrok_url (url : String) : Option String × Option Int :=
  if isHttpUrl url then
    parsePortSplit (stripScheme url) (some (String.mk (stripScheme url)), some 80)
  else
    parsePortSplit (stripScheme url) (none, none)

/-! ### Reachability diagnostics (`run_network_diagnostics`,
`network_diagnostics.py` lines 95-148). -/

/-- Outcome of `ping_host`. -/
structure PingResult where
  success : Bool
  time_ms : ℚ

/-- The recommendation appended when the ping fails. -/
def cannotPingMsg : String :=
  "Cannot ping the host. Check that both computers are on the same network."

/-- The recommendation appended for a closed port, naming the port. -/
def portClosedMsg (port : Nat) : String :=
  "Port " ++ toString port ++
    " is closed. Check your firewall settings and make sure this port is allowed."

/-- The two general recommendations appended when any issue was found. -/
def generalRecs : List String :=
  ["Consider temporarily disabling your firewall for testing, or add an exception for the AppStream application.",
   "If you\x27re on a corporate or school network, try using ngrok for tunneling through firewalls."]

/-- `DiagnosticsReport`: the dict `run_network_diagnostics` returns. -/
structure DiagnosticsReport where
  host : String
  local_ip : String
  ping : PingResult
  ports : List (Nat × Bool)
  firewall_issues : Bool
  recommendations : List String

/-- The `for port in ports` loop: per-port open flags (in order), the
recommendations it appends (in order), and whether it set
`firewall_issues`. -/
def portScan (portOpen : Nat → Bool) : List Nat → List (Nat × Bool) × List String × Bool
  | [] => ([], [], false)
  | p :: ps =>
    let o := portOpen p
    let r := portScan portOpen ps
    ((p, o) :: r.1, (if o then [] else [portClosedMsg p]) ++ r.2.1, (!o) || r.2.2)

/-- `run_network_diagnostics(host, ports)`.  The ping outcome and per-port
reachability are oracles for `ping_host` / `check_port_open` (OS probes).
Recommendation order follows the code: ping recommendation, then one per
closed port in port order, then the two general ones iff `firewall_issues`
was set. -/
def run_network_diagnostics (host local_ip : String) (ping : PingResult)
    (portOpen : Nat → Bool) (ports : List Nat) : DiagnosticsReport :=
  let pingRecs := if ping.success then [] else [cannotPingMsg]
  let scan := portScan portOpen ports
  let flag := (!ping.success) || scan.2.2
  { host := host
    local_ip := local_ip
    ping := ping
    ports := scan.1
    firewall_issues := flag
    recommendations := pingRecs ++ scan.2.1 ++ (if flag then generalRecs else []) }

/-- The invariant claimed for the server's pacing settings:
`fps_limit ≥ 1` and `frame_time = 1.0 / fps_limit`. -/
def FpsInv (s : StreamServerState) : Prop :=
  1 ≤ s.fps_limit ∧ s.frame_time = 1 / (s.fps_limit : ℚ)

end AppStream

namespace AppStream

/-! ## Theorems -/

/-- C2: for every command, of every variant and with any params,
`RemoteCommand.from_json (c.to_json)` reproduces `c`'s `command_type` and
`params` — the decode-of-encode round-trip law. -/
theorem remote_command_round_trip (c : RemoteCommand) :
    RemoteCommand.from_json c.to_json = some c := by
  obtain ⟨ct, p⟩ := c
  cases ct <;> rfl

/-- C3 counterexample: a payload whose declared variant is MouseMove (type 1)
but whose params lack every required field (`x`, `y`) is *not* rejected:
`from_json` returns a command (with the empty params as given), not `None` —
refuting the claim that a missing required field of the declared variant
yields no command. -/
theorem from_json_missing_fields_cex :
    RemoteCommand.from_json (Json.obj [("type", Json.num 1), ("params", Json.obj [])]) =
      some ⟨CommandType.MOUSE_MOVE, Json.obj []⟩ ∧
    RemoteCommand.from_json (Json.obj [("type", Json.num 1), ("params", Json.obj [])]) ≠
      none := by
  have h1 : RemoteCommand.from_json
      (Json.obj [("type", Json.num 1), ("params", Json.obj [])]) =
      some ⟨CommandType.MOUSE_MOVE, Json.obj []⟩ := rfl
  exact ⟨h1, by rw [h1]; exact Option.some_ne_none _⟩

/-- C3 (amended): `from_json` returns `None` when the payload is not an
object, lacks the top-level `type` or `params` keys, or the discriminator
compares `==`-equal to none of the ten member values 1..10 — noting that the
enum lookup compares by `==`, so a boolean or integral-float discriminator
decodes as its integer value (`true` decodes as MouseMove, as does `1.0`);
when the lookup succeeds and `params` is present it returns the command with
those params unchanged — variant-specific required fields are not validated
at decode time. -/
theorem from_json_rejects_unknown_or_missing (j : Json) :
    (j.getField "type" = none → RemoteCommand.from_json j = none) ∧
    (∀ t, j.getField "type" = some t → t.enumKey = none →
      RemoteCommand.from_json j = none) ∧
    (∀ t v, j.getField "type" = some t → t.enumKey = some v →
      CommandType.fromValue v = none → RemoteCommand.from_json j = none) ∧
    (j.getField "params" = none → RemoteCommand.from_json j = none) ∧
    (∀ t v ct p, j.getField "type" = some t → t.enumKey = some v →
      CommandType.fromValue v = some ct → j.getField "params" = some p →
      RemoteCommand.from_json j = some ⟨ct, p⟩) ∧
    RemoteCommand.from_json
        (Json.obj [("type", Json.bool true), ("params", Json.obj [])]) =
      some ⟨CommandType.MOUSE_MOVE, Json.obj []⟩ ∧
    RemoteCommand.from_json
        (Json.obj [("type", Json.float 1), ("params", Json.obj [])]) =
      some ⟨CommandType.MOUSE_MOVE, Json.obj []⟩ := by
  refine ⟨?_, ?_, ?_, ?_, ?_, ?_, ?_⟩
  · intro h; simp [RemoteCommand.from_json, h]
  · intro t h1 h2; simp [RemoteCommand.from_json, h1, h2]
  · intro t v h1 h2 h3; simp [RemoteCommand.from_json, h1, h2, h3]
  · intro h
    cases h1 : j.getField "type" with
    | none => simp [RemoteCommand.from_json, h1]
    | some t =>
      cases h2 : t.enumKey with
      | none => simp [RemoteCommand.from_json, h1, h2]
      | some v =>
        cases h3 : CommandType.fromValue v with
        | none => simp [RemoteCommand.from_json, h1, h2, h3]
        | some ct => simp [RemoteCommand.from_json, h1, h2, h3, h]
  · intro t v ct p h1 h2 h3 h4; simp [RemoteCommand.from_json, h1, h2, h3, h4]
  · rfl
  · rfl

/-- Witness for C3's amended theorem: an unknown discriminator (99) is
rejected even with `params` present. -/
theorem from_json_rejects_unknown_or_missing_witness :
    RemoteCommand.from_json (Json.obj [("type", Json.num 99), ("params", Json.null)]) =
      none :=
  (from_json_rejects_unknown_or_missing
      (Json.obj [("type", Json.num 99), ("params", Json.null)])).2.2.1
    (Json.num 99) 99 rfl rfl rfl

/-- C9: `capture_screen` makes at most two grab attempts; after a failed
first grab it re-acquires the handle and retries exactly once — a second
failure returns `None`, a successful retry hands the grabbed image to the
conversion step and returns its buffer. -/
theorem capture_screen_single_retry {Img Buf : Type} (grab : Nat → Option Img)
    (convert : Img → Option Buf) :
    (capture_screen grab convert).2 ≤ 2 ∧
    (grab 0 = none → grab 1 = none → capture_screen grab convert = (none, 2)) ∧
    (∀ img, grab 0 = none → grab 1 = some img →
      capture_screen grab convert = (convert img, 2)) ∧
    (∀ img, grab 0 = some img → capture_screen grab convert = (convert img, 1)) := by
  refine ⟨?_, ?_, ?_, ?_⟩
  · unfold capture_screen
    cases grab 0 with
    | some img => simp
    | none => cases grab 1 <;> simp
  · intro h0 h1; simp [capture_screen, h0, h1]
  · intro img h0 h1; simp [capture_screen, h0, h1]
  · intro img h0; simp [capture_screen, h0]

/-- Witness for C9: a grab that fails once and succeeds on the retry returns
the converted buffer after exactly two attempts. -/
theorem capture_screen_single_retry_witness :
    capture_screen (fun k => if k = 1 then some 7 else none)
      (fun i : Nat => some (i + 1)) = (some 8, 2) :=
  (capture_screen_single_retry (fun k => if k = 1 then some 7 else none)
      (fun i : Nat => some (i + 1))).2.2.1 7 rfl rfl

/-- C6: `start_tunnel` with protocol `"tcp"`: when the provider's rejection
message marks a TCP plan/capability limit (contains `"TCP endpoints"`) and
`fallback_to_http` is set, exactly one retry is made with protocol `"http"`
and its URL is returned; on any other failure, or with fallback disabled, no
retry occurs and the call returns `None`. -/
theorem start_tunnel_tcp_fallback (connect : Nat → String → Except String String)
    (port : Nat) (e url : String) :
    (connect port "tcp" = .error e → strContains e "TCP endpoints" = true →
      connect port "http" = .ok url →
      start_tunnel connect port "tcp" true =
        (some url, [(port, "tcp"), (port, "http")])) ∧
    (connect port "tcp" = .error e → strContains e "TCP endpoints" = false →
      start_tunnel connect port "tcp" true = (none, [(port, "tcp")])) ∧
    (connect port "tcp" = .error e →
      start_tunnel connect port "tcp" false = (none, [(port, "tcp")])) := by
  refine ⟨?_, ?_, ?_⟩
  · intro h1 h2 h3; simp [start_tunnel, h1, h2, h3]
  · intro h1 h2; simp [start_tunnel, h1, h2]
  · intro h1; simp [start_tunnel, h1]

/-- Witness for C6: a provider that rejects TCP with a plan-limit message and
accepts HTTP produces exactly the two attempts and the HTTP URL. -/
theorem start_tunnel_tcp_fallback_witness :
    start_tunnel
      (fun _ p => if p = "tcp" then .error "requires TCP endpoints upgrade"
                  else .ok "http://x.example.io")
      5000 "tcp" true =
      (some "http://x.example.io", [(5000, "tcp"), (5000, "http")]) :=
  (start_tunnel_tcp_fallback
      (fun _ p => if p = "tcp" then .error "requires TCP endpoints upgrade"
                  else .ok "http://x.example.io")
      5000 "requires TCP endpoints upgrade" "http://x.example.io").1
    rfl (by decide) rfl

/-- C10: the invariant `fps_limit ≥ 1 ∧ frame_time = 1 / fps_limit` holds
after construction and is preserved by `set_quality`, by `set_fps_limit`
(which stores `max(1, fps)` and recomputes `frame_time` in the same call),
and by the per-frame pacing update. -/
theorem fps_invariant :
    FpsInv StreamServerState.init ∧
    (∀ (s : StreamServerState) (fps : Int),
      (s.set_fps_limit fps).fps_limit = max 1 fps) ∧
    (∀ s fps, FpsInv s → FpsInv (s.set_fps_limit fps)) ∧
    (∀ s q, FpsInv s → FpsInv (s.set_quality q)) ∧
    (∀ s now, FpsInv s → FpsInv (handleClientTick s now).1) := by
  refine ⟨⟨by norm_num [StreamServerState.init], by norm_num [StreamServerState.init]⟩,
    ?_, ?_, ?_, ?_⟩
  · intro s fps; rfl
  · intro s fps _
    exact ⟨le_max_left 1 fps, rfl⟩
  · intro s q h; exact h
  · intro s now h
    unfold handleClientTick
    split
    · exact h
    · exact h

/-- Witness for C10: `set_fps_limit 0` on the freshly constructed server
floors the limit at 1 and the invariant still holds. -/
theorem fps_invariant_witness :
    FpsInv (StreamServerState.init.set_fps_limit 0) ∧
    (StreamServerState.init.set_fps_limit 0).fps_limit = 1 :=
  ⟨fps_invariant.2.2.1 StreamServerState.init 0 fps_invariant.1, rfl⟩

/-- C5 (shared pacing state): `last_frame_time` is one field of the shared
server object, so one connection's send activity moves every connection's
pacing clock.  Concretely: from the initial state, handler A sends a frame at
t = 100; handler B, which has never sent a frame, is then gated at
t = 100.01 (because `100.01 - 100 < 1/30`), whereas from its own untouched
pacing state B would have sent (`100.01 - 0 ≥ 1/30`).  Connection B's frame
emission is delayed by connection A's activity, refuting per-connection
pacing independence. -/
theorem shared_pacing_interference :
    (handleClientTick StreamServerState.init 100).2 = true ∧
    (handleClientTick (handleClientTick StreamServerState.init 100).1
      (100 + 1 / 100)).2 = false ∧
    (handleClientTick StreamServerState.init (100 + 1 / 100)).2 = true := by
  refine ⟨?_, ?_, ?_⟩ <;>
    norm_num [handleClientTick, StreamServerState.init]

/-- If a buffer holds no complete line, it is returned unchanged as the
remainder. -/
theorem splitNl_snd_of_fst_nil :
    ∀ a : List Char, (splitNl a).1 = [] → (splitNl a).2 = a := by
  intro a
  induction a with
  | nil => simp [splitNl]
  | cons c a' ih =>
    by_cases hc : c = '\n'
    · subst hc; simp [splitNl]
    · rcases h : splitNl a' with ⟨ls, r⟩
      cases ls with
      | cons l ls' => simp [splitNl, hc, h]
      | nil =>
        have hr := ih (by rw [h])
        rw [h] at hr
        simp at hr
        simp [splitNl, hc, h, hr]

/-- The remainder left by line splitting never contains a newline. -/
theorem splitNl_nl_not_mem_snd : ∀ a : List Char, '\n' ∉ (splitNl a).2 := by
  intro a
  induction a with
  | nil => simp [splitNl]
  | cons c a' ih =>
    by_cases hc : c = '\n'
    · subst hc; simpa [splitNl] using ih
    · rcases h : splitNl a' with ⟨ls, r⟩
      rw [h] at ih
      cases ls with
      | cons l ls' => simpa [splitNl, hc, h] using ih
      | nil =>
        simp only [splitNl, if_neg hc, h]
        simpa using ⟨fun hh => hc hh.symm, ih⟩

/-- A newline-free buffer splits into no lines and itself as remainder. -/
theorem splitNl_of_not_mem :
    ∀ a : List Char, '\n' ∉ a → splitNl a = ([], a) := by
  intro a
  induction a with
  | nil => intro _; rfl
  | cons c a' ih =>
    intro h
    have hc : ¬ c = '\n' := fun hh => h (by simp [hh])
    have h' : '\n' ∉ a' := fun hh => h (by simp [hh])
    simp [splitNl, hc, ih h']

/-- Line splitting over a concatenation: the lines of `a ++ b` are the lines
of `a` followed by the lines of `a`'s remainder glued to `b`. -/
theorem splitNl_append (a b : List Char) :
    splitNl (a ++ b) =
      ((splitNl a).1 ++ (splitNl ((splitNl a).2 ++ b)).1,
        (splitNl ((splitNl a).2 ++ b)).2) := by
  induction a with
  | nil => simp [splitNl]
  | cons c a' ih =>
    by_cases hc : c = '\n'
    · subst hc; simp [splitNl, ih]
    · rcases h : splitNl a' with ⟨ls, r⟩
      rw [h] at ih
      cases ls with
      | cons l ls' =>
        simp at ih
        simp [splitNl, hc, h, ih]
      | nil =>
        have hr := splitNl_snd_of_fst_nil a' (by rw [h])
        rw [h] at hr; simp at hr
        subst hr
        simp [splitNl, hc, h]

/-- The receive loop over any chunking, started from a newline-free carry
buffer, dispatches exactly the decodes of the complete lines of the whole
concatenated stream. -/
theorem runChunks_snd {α : Type} (decode : List Char → Option α) :
    ∀ (chunks : List (List Char)) (buffer : List Char), '\n' ∉ buffer →
      (runChunks decode buffer chunks).2 =
        ((splitNl (buffer ++ chunks.flatten)).1).filterMap decode := by
  intro chunks
  induction chunks with
  | nil =>
    intro buffer hb
    simp [runChunks, splitNl_of_not_mem buffer hb]
  | cons ch rest ih =>
    intro buffer hb
    have hnext := ih (splitNl (buffer ++ ch)).2 (splitNl_nl_not_mem_snd _)
    simp only [runChunks, commandStep]
    rw [hnext]
    have hflat : buffer ++ (ch :: rest).flatten = (buffer ++ ch) ++ rest.flatten := by
      simp [List.flatten_cons]
    rw [hflat, splitNl_append (buffer ++ ch) rest.flatten]
    simp [List.filterMap_append]

/-- C4: for every newline-delimited command byte stream and every way of
delivering it as successive non-empty reads (splits mid-line included), the
command handler dispatches exactly the sequence of successfully decoded
complete lines, in stream order; a line whose decode fails is merely skipped
(dropped by the `filterMap`) and later lines are unaffected. -/
theorem command_stream_dispatch {α : Type} (decode : List Char → Option α)
    (chunks : List (List Char)) (hne : ∀ ch ∈ chunks, ch ≠ []) :
    (runChunks decode [] chunks).2 =
      ((splitNl chunks.flatten).1).filterMap decode := by
  simpa using runChunks_snd decode chunks [] (by simp)

/-- Witness for C4: the stream `"ab\ncd\n"` delivered as the two partial
reads `"ab\nc"` and `"d\nxyz"` (split mid-line) dispatches exactly the two
decoded commands; the trailing line `"xyz"` fails to decode and is skipped. -/
theorem command_stream_dispatch_witness :
    (["ab\nc".data, "d\nxyz\n".data].all fun ch => !ch.isEmpty) = true ∧
    (runChunks (fun l => if l.length = 2 then some (String.mk l) else none) []
        ["ab\nc".data, "d\nxyz\n".data]).2 = ["ab", "cd"] := by
  constructor
  · decide
  · rw [command_stream_dispatch (fun l => if l.length = 2 then some (String.mk l) else none)
      ["ab\nc".data, "d\nxyz\n".data] (by decide)]
    rfl

/-- The port loop sets the firewall flag iff some requested port is closed. -/
theorem portScan_flag (f : Nat → Bool) :
    ∀ ports : List Nat, (portScan f ports).2.2 = ports.any fun p => !f p := by
  intro ports
  induction ports with
  | nil => rfl
  | cons p ps ih => simp [portScan, ih]

/-- If the port loop found no issue it appended no recommendation. -/
theorem portScan_recs_nil (f : Nat → Bool) :
    ∀ ports : List Nat, (portScan f ports).2.2 = false →
      (portScan f ports).2.1 = [] := by
  intro ports
  induction ports with
  | nil => intro _; rfl
  | cons p ps ih =>
    intro h
    simp only [portScan, Bool.or_eq_false_iff] at h
    obtain ⟨h1, h2⟩ := h
    have h1' : f p = true := by revert h1; cases f p <;> simp
    simp [portScan, h1', ih h2]

/-- Every closed requested port contributes its named recommendation. -/
theorem portScan_mem (f : Nat → Bool) :
    ∀ (ports : List Nat) (p : Nat), p ∈ ports → f p = false →
      portClosedMsg p ∈ (portScan f ports).2.1 := by
  intro ports
  induction ports with
  | nil => intro p hp; exact absurd hp (List.not_mem_nil p)
  | cons q ps ih =>
    intro p hp hf
    rcases List.mem_cons.mp hp with hq | hq
    · subst hq; simp [portScan, hf]
    · simp only [portScan, List.mem_append]
      exact Or.inr (ih p hq hf)

/-- C8: the report's `firewall_issues` flag is true iff the ping failed or at
least one requested port is closed; a report with the flag false carries no
recommendations at all; and for every closed requested port the
recommendation list contains the message naming that port. -/
theorem diagnostics_firewall_flag (host local_ip : String) (ping : PingResult)
    (portOpen : Nat → Bool) (ports : List Nat) :
    ((run_network_diagnostics host local_ip ping portOpen ports).firewall_issues = true ↔
      (ping.success = false ∨ ∃ p ∈ ports, portOpen p = false)) ∧
    ((run_network_diagnostics host local_ip ping portOpen ports).firewall_issues = false →
      (run_network_diagnostics host local_ip ping portOpen ports).recommendations = []) ∧
    (∀ p, p ∈ ports → portOpen p = false →
      portClosedMsg p ∈
        (run_network_diagnostics host local_ip ping portOpen ports).recommendations) := by
  refine ⟨?_, ?_, ?_⟩
  · simp [run_network_diagnostics, portScan_flag, List.any_eq_true]
  · intro h
    simp only [run_network_diagnostics, Bool.or_eq_false_iff] at h
    obtain ⟨h1, h2⟩ := h
    have h1' : ping.success = true := by revert h1; cases ping.success <;> simp
    simp [run_network_diagnostics, h1', h2, portScan_recs_nil portOpen ports h2]
  · intro p hp hf
    simp only [run_network_diagnostics, List.mem_append]
    exact Or.inl (Or.inr (portScan_mem portOpen ports p hp hf))

/-- Witness for C8: one open port (5000) and one closed port (5001) with a
successful ping — the closed port's recommendation, naming 5001, is in the
report. -/
theorem diagnostics_firewall_flag_witness :
    portClosedMsg 5001 ∈
      (run_network_diagnostics "192.168.1.7" "192.168.1.2" ⟨true, 12⟩
        (fun p => p = 5000) [5000, 5001]).recommendations :=
  (diagnostics_firewall_flag "192.168.1.7" "192.168.1.2" ⟨true, 12⟩
      (fun p => p = 5000) [5000, 5001]).2.2 5001 (by simp) (by decide)

/-- C1 (wire format): the length field actually written is
`struct.pack("L", len(data))` — the host's native `unsigned long`, 8 bytes
little-endian on 64-bit Linux/macOS — not the fixed 4-byte big-endian field
the wire format specifies; the bytes differ across host architectures, and
the client consumes `struct.calcsize("L")` bytes, likewise not 4.  Shown at
the concrete payload `[42]` (length 1). -/
theorem native_length_not_be4 :
    packNativeUL 8 1 = [1, 0, 0, 0, 0, 0, 0, 0] ∧
    packBE4 1 = [0, 0, 0, 1] ∧
    packNativeUL 8 1 ≠ packBE4 1 ∧
    packNativeUL 4 1 ≠ packNativeUL 8 1 ∧
    sentFrameBytes 8 [42] = [1, 0, 0, 0, 0, 0, 0, 0, 42] ∧
    sentFrameBytes 8 [42] ≠ packBE4 1 ++ [42] ∧
    clientPayloadSize 8 ≠ 4 := by
  refine ⟨by decide, by decide, by decide, by decide, by decide, by decide, by decide⟩

/-- `String.mk` is inverse to `String.data`. -/
theorem stringMk_data : ∀ s : String, String.mk s.data = s
  | ⟨_⟩ => rfl

/-- A pattern occurring at the front of a list occurs in it. -/
theorem containsSeq_of_isPrefSeq (pat l : List Char)
    (h : isPrefSeq pat l = true) : containsSeq pat l = true := by
  cases l with
  | nil =>
    cases pat with
    | nil => rfl
    | cons p ps => simp [isPrefSeq] at h
  | cons c rest => simp [containsSeq, h]

/-- `pat` starts `pat ++ l`. -/
theorem isPrefSeq_append_self :
    ∀ pat l : List Char, isPrefSeq pat (pat ++ l) = true := by
  intro pat
  induction pat with
  | nil => intro l; rfl
  | cons p ps ih => intro l; simp [isPrefSeq, ih l]

/-- `rsplit` finds nothing when the separator is absent. -/
theorem rsplitLastChar_eq_none (sep : Char) :
    ∀ l : List Char, sep ∉ l → rsplitLastChar sep l = none := by
  intro l
  induction l with
  | nil => intro _; rfl
  | cons x xs ih =>
    intro h
    have hx : ¬ x = sep := fun hh => h (by simp [hh])
    have h' : sep ∉ xs := fun hh => h (by simp [hh])
    simp [rsplitLastChar, ih h', hx]

/-- `rsplit` at the last separator: with none in `b`, splitting
`a ++ sep :: b` yields `(a, b)`. -/
theorem rsplitLastChar_append (sep : Char) :
    ∀ a b : List Char, sep ∉ b → rsplitLastChar sep (a ++ sep :: b) = some (a, b) := by
  intro a b hb
  induction a with
  | nil => simp [rsplitLastChar, rsplitLastChar_eq_none sep b hb]
  | cons x a' ih => simp [rsplitLastChar, ih]

/-- `int()` succeeds on a non-empty all-digit string, with its decimal
value. -/
theorem parseIntPy_digits :
    ∀ l : List Char, l ≠ [] → l.all Char.isDigit = true →
      parseIntPy l = some ((natOfDigits l : Int)) := by
  intro l hne hdig
  cases l with
  | nil => exact absurd rfl hne
  | cons c ds =>
    have hc : ¬ c = '-' := by
      intro hh
      subst hh
      rw [List.all_cons] at hdig
      have hfalse : ('-').isDigit = false := by decide
      rw [hfalse] at hdig
      simp at hdig
    simp [parseIntPy, hc, hdig]

/-- No-colon text falls through `parsePortSplit` to the no-port outcome. -/
theorem parsePortSplit_of_not_mem (l : List Char) (nc : Option String × Option Int)
    (h : ':' ∉ l) : parsePortSplit l nc = nc := by
  simp [parsePortSplit, rsplitLastChar_eq_none ':' l h]

/-- Text of the form `host:digits` splits into the host and the numeric
port. -/
theorem parsePortSplit_append (a ds : List Char) (nc : Option String × Option Int)
    (hds : ':' ∉ ds) (hne : ds ≠ []) (hdig : ds.all Char.isDigit = true) :
    parsePortSplit (a ++ ':' :: ds) nc =
      (some (String.mk a), some ((natOfDigits ds : Int))) := by
  simp [parsePortSplit, rsplitLastChar_append ':' a ds hds,
    parseIntPy_digits ds hne hdig]

/-- Digit text contains no colon. -/
theorem colon_not_mem_of_digits (ds : List Char) (hdig : ds.all Char.isDigit = true) :
    ':' ∉ ds := by
  intro hmem
  have hall := List.all_eq_true.mp hdig ':' hmem
  exact absurd hall (by decide)

/-- C7: tunnel-URL parsing branches on scheme.  A `tcp://host:port` URL with a
numeric port yields the host and that explicit port; a `tcp://host` URL with
no port (and no colon in the host) fails with `(None, None)`; an
`http://host` or `https://host` URL without an explicit port yields the host
with the default port 80, with no error. -/
theorem parse_ngrok_url_schemes (host : String) (ds : List Char) :
    (isHttpUrl ("tcp://" ++ host ++ ":" ++ String.mk ds) = false → ds ≠ [] →
      ds.all Char.isDigit = true →
      parse_ngrok_url ("tcp://" ++ host ++ ":" ++ String.mk ds) =
        (some host, some ((natOfDigits ds : Int)))) ∧
    (isHttpUrl ("tcp://" ++ host) = false → ':' ∉ host.data →
      parse_ngrok_url ("tcp://" ++ host) = (none, none)) ∧
    (':' ∉ host.data →
      parse_ngrok_url ("http://" ++ host) = (some host, some 80)) ∧
    (':' ∉ host.data →
      parse_ngrok_url ("https://" ++ host) = (some host, some 80)) := by
  obtain ⟨hostL⟩ := host
  refine ⟨?_, ?_, ?_, ?_⟩
  · intro hhttp hne hdig
    have hstrip : stripScheme ("tcp://" ++ String.mk hostL ++ ":" ++ String.mk ds) =
        (hostL ++ [':']) ++ ds := rfl
    simp only [parse_ngrok_url, hhttp, Bool.false_eq_true, if_false, hstrip]
    rw [List.append_assoc, List.singleton_append,
      parsePortSplit_append hostL ds _ (colon_not_mem_of_digits ds hdig) hne hdig]
  · intro hhttp hcolon
    have hstrip : stripScheme ("tcp://" ++ String.mk hostL) = hostL := rfl
    simp only [parse_ngrok_url, hhttp, Bool.false_eq_true, if_false, hstrip]
    exact parsePortSplit_of_not_mem hostL _ hcolon
  · intro hcolon
    have hh : isHttpUrl ("http://" ++ String.mk hostL) = true := by
      unfold isHttpUrl
      refine Bool.or_eq_true_iff.mpr (Or.inl ?_)
      exact containsSeq_of_isPrefSeq _ _ (isPrefSeq_append_self "http://".data (lowerChars hostL))
    have hstrip : stripScheme ("http://" ++ String.mk hostL) = hostL := rfl
    simp only [parse_ngrok_url, hh, if_true, hstrip]
    rw [parsePortSplit_of_not_mem hostL _ hcolon]
  · intro hcolon
    have hh : isHttpUrl ("https://" ++ String.mk hostL) = true := by
      unfold isHttpUrl
      refine Bool.or_eq_true_iff.mpr (Or.inr ?_)
      exact containsSeq_of_isPrefSeq _ _ (isPrefSeq_append_self "https://".data (lowerChars hostL))
    have hstrip : stripScheme ("https://" ++ String.mk hostL) = hostL := rfl
    simp only [parse_ngrok_url, hh, if_true, hstrip]
    rw [parsePortSplit_of_not_mem hostL _ hcolon]

/-- Witness for C7: `tcp://0.tcp.example.io:12345` parses to that host and
port 12345, and `https://abc.example.io` parses to that host and port 80. -/
theorem parse_ngrok_url_schemes_witness :
    parse_ngrok_url "tcp://0.tcp.example.io:12345" =
      (some "0.tcp.example.io", some 12345) ∧
    parse_ngrok_url "https://abc.example.io" = (some "abc.example.io", some 80) := by
  constructor
  · have h := (parse_ngrok_url_schemes "0.tcp.example.io" "12345".data).1
      (by decide) (by decide) (by decide)
    rw [show ("tcp://" ++ "0.tcp.example.io" ++ ":" ++ String.mk "12345".data) =
      "tcp://0.tcp.example.io:12345" from rfl] at h
    rw [h]
    rfl
  · have h := (parse_ngrok_url_schemes "abc.example.io" []).2.2.2 (by decide)
    rw [show ("https://" ++ ("abc.example.io" : String)) =
      "https://abc.example.io" from rfl] at h
    exact h

end AppStream
